import Mathlib

/-!
Shallow embedding of the runtime diagnostic engine `runtime/php_assert.cpp`.

The file models, directly from the source:
- the global warning configuration (`php_warning_level`, `php_disable_warnings`,
  `die_on_fail`) as a `Config`;
- the static rate-limiter state of `php_warning` (`warnings_printed`,
  `warnings_count_time`, `skipped`) together with the critical-section depth
  of `dl::in_critical_section` as a `WarnState`;
- addresses as natural numbers; the linker-section test
  `is_address_inside_run_scheduler`, the `std::find_if` boundary scan,
  `print_demangled_adresses`, the backtrace block of `php_warning`, and the
  full control flow of `php_warning` / `php_assert__` as functions producing
  an `Outcome` (returned vs. process terminated), the updated state, and the
  ordered list of externally observable `Effect`s (stderr lines, the warning
  callback, `raise(SIGPHPASSERT)` and `_exit(1)`).

External collaborators (`get_demangled_backtrace`, gdb, `get_resumable_stack`,
`fast_backtrace`, the current time) are parameters gathered in `Env`: the
captured physical frames, the resumable (cooperative) frames, the scheduler
section bounds, and the text the level-2/level-3 renderers would produce.
-/

namespace PhpAssert

/-- static const int warnings_time_period = 300 (seconds). -/
def warnings_time_period : Int := 300

/-- static const int warnings_time_limit = 1000 (per-window cap). -/
def warnings_time_limit : Nat := 1000

/-- The process-wide configuration globals read by `php_warning`. -/
structure Config where
  php_warning_level : Nat
  php_disable_warnings : Bool
  die_on_fail : Bool

/-- One line written to stderr, tagged by which `fprintf` produced it. -/
inductive OutLine where
  | resumingNotice (time : Int) (skippedCount : Nat)
  | limitReached (time untilTime : Int)
  | header (time : Int) (msg : String)
  | backtraceBegin
  | addrLine (address : Nat)
  | symLine (text : String)
  | gdbLine (text : String)
  | backtraceEnd
  | exitingWarningLine
  | exitingAssertLine
deriving DecidableEq

/-- An externally observable action of the diagnostic engine. -/
inductive Effect where
  | output (l : OutLine)
  | hookInvoked (msg : String)
  | raiseSignal
  | exited (code : Nat)
deriving DecidableEq

/-- Whether a call returns to its caller or terminates the process. -/
inductive Outcome where
  | returned
  | terminated
deriving DecidableEq

/-- External inputs of one emission: current time, the frames captured by
`fast_backtrace`, the frames `get_resumable_stack` would return, the
`run_scheduler` section bounds, and the text lines the level-2 symbol
resolver and the level-3 gdb path would print. -/
structure Env where
  cur_time : Int
  frames : List Nat
  coopFrames : List Nat
  region : Nat × Nat
  level2 : List Nat → Nat → List String
  level3 : List String

/-- The static mutable state of `php_warning` plus the critical-section
depth of `dl::in_critical_section`. -/
structure WarnState where
  warnings_printed : Nat
  warnings_count_time : Int
  skipped : Nat
  critical_depth : Nat
deriving DecidableEq

/-- dl::enter_critical_section(). -/
def enter_critical_section (s : WarnState) : WarnState :=
  { s with critical_depth := s.critical_depth + 1 }

/-- dl::leave_critical_section(). -/
def leave_critical_section (s : WarnState) : WarnState :=
  { s with critical_depth := s.critical_depth - 1 }

/-- dl::in_critical_section (as a truth value: the depth is positive). -/
def in_critical_section (s : WarnState) : Bool :=
  decide (0 < s.critical_depth)

/-- `&__start_run_scheduler_section <= address && address <= &__stop_run_scheduler_section`. -/
def is_address_inside_run_scheduler (region : Nat × Nat) (address : Nat) : Bool :=
  decide (region.1 ≤ address) && decide (address ≤ region.2)

/-- `std::find_if(buffer, buffer + nptrs, is_address_inside_run_scheduler) - buffer`:
index of the first frame inside the scheduler section, or the frame count. -/
def scheduler_idx (region : Nat × Nat) : List Nat → Nat
  | [] => 0
  | a :: rest =>
    if is_address_inside_run_scheduler region a then 0
    else scheduler_idx region rest + 1

/-- `print_demangled_adresses(buffer, nptrs, num_shift)`: level 1 prints each
address raw, level 2 prints the demangler's text lines, level 3 prints
whatever the spawned gdb produced (the code ignores the buffer there). -/
def print_demangled_adresses (cfg : Config) (env : Env)
    (buffer : List Nat) (num_shift : Nat) : List OutLine :=
  if cfg.php_warning_level = 1 then
    buffer.map OutLine.addrLine
  else if cfg.php_warning_level = 2 then
    (env.level2 buffer num_shift).map OutLine.symLine
  else if cfg.php_warning_level = 3 then
    env.level3.map OutLine.gdbLine
  else []

/-- php_warning lines 126-135: find the scheduler boundary; with no boundary
print the frames as one segment, otherwise print the pre-boundary frames,
the resumable frames, then the post-boundary frames with shifted numbers. -/
def renderSegments (cfg : Config) (env : Env) (frames : List Nat) : List OutLine :=
  if scheduler_idx env.region frames = frames.length then
    print_demangled_adresses cfg env frames 0
  else
    print_demangled_adresses cfg env (frames.take (scheduler_idx env.region frames)) 0 ++
      print_demangled_adresses cfg env env.coopFrames (scheduler_idx env.region frames) ++
      print_demangled_adresses cfg env (frames.drop (scheduler_idx env.region frames))
        (scheduler_idx env.region frames + env.coopFrames.length)

/-- php_warning lines 118-124: the captured frames, with the two outermost
entries dropped when the warning level is 1 (`nptrs -= 2`, clamped at 0). -/
def effectiveFrames (cfg : Config) (env : Env) : List Nat :=
  if cfg.php_warning_level = 1 then
    env.frames.take (env.frames.length - 2)
  else
    env.frames

/-- php_warning lines 115-138: the stack-backtrace block, empty when the
warning level is below 1. -/
def backtraceBlock (cfg : Config) (env : Env) : List OutLine :=
  if 1 ≤ cfg.php_warning_level then
    OutLine.backtraceBegin ::
      renderSegments cfg env (effectiveFrames cfg env) ++ [OutLine.backtraceEnd]
  else []

/-- php_warning lines 88-90: reset `warnings_printed` and move the window
start when a full period has elapsed (the window check also resets
`skipped`, lines 91-94). -/
def afterRoll (env : Env) (s : WarnState) : WarnState :=
  if s.warnings_count_time + warnings_time_period ≤ env.cur_time then
    { s with warnings_printed := 0, warnings_count_time := env.cur_time, skipped := 0 }
  else s

/-- php_warning lines 91-94: the resuming notice, printed on rollover when
some warnings were skipped in the elapsed window. -/
def rollEffects (env : Env) (s : WarnState) : List Effect :=
  if s.warnings_count_time + warnings_time_period ≤ env.cur_time ∧ 0 < s.skipped then
    [Effect.output (OutLine.resumingNotice env.cur_time s.skipped)]
  else []

/-- php_warning lines 110-138: the warning header followed by the backtrace
block. -/
def renderEffects (cfg : Config) (env : Env) (msg : String) : List Effect :=
  Effect.output (OutLine.header env.cur_time msg) ::
    (backtraceBlock cfg env).map Effect.output

/-- `php_warning(message, ...)`, lines 74-149, with the formatted message as
`msg`.  Returns the outcome, the updated static state, and the ordered list
of observable effects. -/
def php_warning (cfg : Config) (env : Env) (msg : String) (s : WarnState) :
    Outcome × WarnState × List Effect :=
  if cfg.php_warning_level = 0 ∨ cfg.php_disable_warnings = true then
    (Outcome.returned, s, [])
  else
    let s1 := afterRoll env s
    let s2 := { s1 with warnings_printed := s1.warnings_printed + 1 }
    if warnings_time_limit ≤ s2.warnings_printed then
      (Outcome.returned, { s2 with skipped := s2.skipped + 1 },
       rollEffects env s ++
         (if s2.warnings_printed = warnings_time_limit then
            [Effect.output (OutLine.limitReached env.cur_time
              (s2.warnings_count_time + warnings_time_period))]
          else []))
    else
      let s3 := leave_critical_section (enter_critical_section s2)
      let hookFx : List Effect :=
        if in_critical_section s3 = false then [Effect.hookInvoked msg] else []
      if cfg.die_on_fail = true then
        (Outcome.terminated, s3,
         rollEffects env s ++ renderEffects cfg env msg ++ hookFx ++
           [Effect.raiseSignal, Effect.output OutLine.exitingWarningLine,
            Effect.exited 1])
      else
        (Outcome.returned, s3,
         rollEffects env s ++ renderEffects cfg env msg ++ hookFx)

/-- The message `php_assert__` formats for `php_warning`. -/
def assertMsg (msg file : String) (line : Int) : String :=
  "Assertion \"" ++ msg ++ "\" failed in file " ++ file ++ " on line " ++ toString line

/-- `php_assert__(msg, file, line)`, lines 151-156: emit the warning, then
raise SIGPHPASSERT, print the final line, and `_exit(1)`.  If `php_warning`
already terminated the process (die-on-fail), nothing further happens. -/
def php_assert__ (cfg : Config) (env : Env) (msg file : String) (line : Int)
    (s : WarnState) : Outcome × WarnState × List Effect :=
  match php_warning cfg env (assertMsg msg file line) s with
  | (Outcome.terminated, s', effs) => (Outcome.terminated, s', effs)
  | (Outcome.returned, s', effs) =>
      (Outcome.terminated, s',
       effs ++ [Effect.raiseSignal, Effect.output OutLine.exitingAssertLine,
                Effect.exited 1])

/-- `raise_php_assert_signal__()`, lines 158-160. -/
def raise_php_assert_signal__ : List Effect := [Effect.raiseSignal]

/-- Run a sequence of `php_warning` emissions, threading the static state;
the sequence stops if an emission terminates the process. -/
def emitSeq (cfg : Config) : List Env → String → WarnState → WarnState × List Effect
  | [], _, s => (s, [])
  | e :: rest, msg, s =>
    if (php_warning cfg e msg s).1 = Outcome.terminated then
      ((php_warning cfg e msg s).2.1, (php_warning cfg e msg s).2.2)
    else
      ((emitSeq cfg rest msg (php_warning cfg e msg s).2.1).1,
       (php_warning cfg e msg s).2.2 ++
         (emitSeq cfg rest msg (php_warning cfg e msg s).2.1).2)

/-- A warning header line (the start of one rendered report). -/
def isHeaderLine : OutLine → Bool
  | OutLine.header _ _ => true
  | _ => false

/-- The effect that writes a warning header line. -/
def isHeader : Effect → Bool
  | Effect.output l => isHeaderLine l
  | _ => false

/-- Number of rendered warning reports among a list of effects. -/
def countRendered (effs : List Effect) : Nat :=
  (effs.filter isHeader).length

/-- The external warning-callback effect. -/
def isHook : Effect → Bool
  | Effect.hookInvoked _ => true
  | _ => false

/-- An effect that participates in terminating the process. -/
def isTermEffect : Effect → Bool
  | Effect.raiseSignal => true
  | Effect.exited _ => true
  | _ => false

/-- A raw-address backtrace line. -/
def isAddrLine : OutLine → Bool
  | OutLine.addrLine _ => true
  | _ => false

/-- The frame sequence whose raw addresses a level-1 backtrace prints: the
capture with its two outermost entries dropped, with the cooperative frames
spliced at the scheduler boundary when one exists. -/
def level1Frames (env : Env) : List Nat :=
  if scheduler_idx env.region (env.frames.take (env.frames.length - 2)) =
      (env.frames.take (env.frames.length - 2)).length then
    env.frames.take (env.frames.length - 2)
  else
    (env.frames.take (env.frames.length - 2)).take
        (scheduler_idx env.region (env.frames.take (env.frames.length - 2))) ++
      env.coopFrames ++
      (env.frames.take (env.frames.length - 2)).drop
        (scheduler_idx env.region (env.frames.take (env.frames.length - 2)))

/-- Concrete configuration for witnesses: level 1, warnings on, no die-on-fail. -/
def cfgW : Config := { php_warning_level := 1, php_disable_warnings := false, die_on_fail := false }

/-- Concrete configuration for witnesses: verbosity 0. -/
def cfgZero : Config := { php_warning_level := 0, php_disable_warnings := false, die_on_fail := false }

/-- Concrete emission environment: time 0, no frames. -/
def envW : Env :=
  { cur_time := 0, frames := [], coopFrames := [], region := (100, 200),
    level2 := fun _ _ => [], level3 := [] }

/-- Concrete emission environment one full period later. -/
def envW2 : Env := { envW with cur_time := 300 }

/-- Concrete emission environment with three captured frames outside the
scheduler region. -/
def envW3 : Env := { envW with frames := [1, 2, 3] }

/-- Concrete emission environment whose innermost frame is inside the
scheduler region. -/
def envW4 : Env := { envW with frames := [150, 5], coopFrames := [7] }

/-- Fresh rate-window state: counters zero, window started at `tc`. -/
def freshState (tc : Int) : WarnState :=
  { warnings_printed := 0, warnings_count_time := tc, skipped := 0, critical_depth := 0 }

/-! ## Basic lemmas about the pieces -/

theorem afterRoll_critical_depth (env : Env) (s : WarnState) :
    (afterRoll env s).critical_depth = s.critical_depth := by
  unfold afterRoll
  split_ifs <;> rfl

theorem leave_enter_depth (t : WarnState) :
    (leave_critical_section (enter_critical_section t)).critical_depth =
      t.critical_depth := by
  simp [leave_critical_section, enter_critical_section]

theorem scheduler_idx_le_length (region : Nat × Nat) (l : List Nat) :
    scheduler_idx region l ≤ l.length := by
  induction l with
  | nil => simp [scheduler_idx]
  | cons a t ih =>
    rw [scheduler_idx]
    split_ifs
    · simp
    · simp only [List.length_cons]
      omega

theorem scheduler_idx_eq_takeWhile_length (region : Nat × Nat) (l : List Nat) :
    scheduler_idx region l =
      (l.takeWhile (fun a => ! is_address_inside_run_scheduler region a)).length := by
  induction l with
  | nil => rfl
  | cons a t ih =>
    by_cases h : is_address_inside_run_scheduler region a
    · simp [scheduler_idx, h, List.takeWhile_cons]
    · simp [scheduler_idx, h, List.takeWhile_cons, ih]

theorem scheduler_idx_eq_length_of_none (region : Nat × Nat) (l : List Nat)
    (h : ∀ a ∈ l, is_address_inside_run_scheduler region a = false) :
    scheduler_idx region l = l.length := by
  induction l with
  | nil => rfl
  | cons a t ih =>
    have ha := h a (List.mem_cons_self a t)
    simp only [scheduler_idx, ha, Bool.false_eq_true, if_false, List.length_cons]
    have := ih fun x hx => h x (List.mem_cons_of_mem a hx)
    omega

/-! ## C8: scheduler-region membership bounds -/

/-- C8 counterexample: the code classifies an address equal to the region's
end bound as inside the scheduler, while the claimed half-open range
[start, end) would classify it as outside. -/
theorem c8_counterexample :
    is_address_inside_run_scheduler (100, 200) 200 = true ∧ ¬ (100 ≤ 200 ∧ 200 < 200) := by
  decide

/-- C8 (amended): membership of a frame address in the scheduler region is
decided by the closed range [start, end]: an address is treated as inside
exactly when start ≤ a and a ≤ end, so an address equal to the end bound is
classified as inside. -/
theorem c8_theorem (st en a : Nat) :
    is_address_inside_run_scheduler (st, en) a = true ↔ st ≤ a ∧ a ≤ en := by
  simp [is_address_inside_run_scheduler]

/-! ## C2: the boundary classifier -/

/-- C2: the classifier returns the index of the first frame (in
innermost-to-outermost capture order) whose address lies in the scheduler
region — the length of the longest prefix of non-scheduler frames — and it
returns the frame count, with no cooperative frames spliced into the
rendered segments, when no frame address lies in the region. -/
theorem c2_theorem (cfg : Config) (env : Env) (frames : List Nat) :
    scheduler_idx env.region frames =
      (frames.takeWhile (fun a => ! is_address_inside_run_scheduler env.region a)).length ∧
    ((∀ a ∈ frames, is_address_inside_run_scheduler env.region a = false) →
      scheduler_idx env.region frames = frames.length ∧
      renderSegments cfg env frames = print_demangled_adresses cfg env frames 0) := by
  refine ⟨scheduler_idx_eq_takeWhile_length env.region frames, fun h => ?_⟩
  have hlen := scheduler_idx_eq_length_of_none env.region frames h
  exact ⟨hlen, by simp [renderSegments, hlen]⟩

/-- C2 witness at frames [1, 2, 3] and region (100, 200): no frame lies in
the region, the classifier returns 3, and the segments are printed without
splicing. -/
theorem c2_witness :
    scheduler_idx envW3.region [1, 2, 3] =
      (([1, 2, 3] : List Nat).takeWhile
        (fun a => ! is_address_inside_run_scheduler envW3.region a)).length ∧
    (scheduler_idx envW3.region [1, 2, 3] = ([1, 2, 3] : List Nat).length ∧
      renderSegments cfgW envW3 [1, 2, 3] =
        print_demangled_adresses cfgW envW3 [1, 2, 3] 0) :=
  ⟨(c2_theorem cfgW envW3 [1, 2, 3]).1, (c2_theorem cfgW envW3 [1, 2, 3]).2 (by decide)⟩

/-! ## C4: segment order around the boundary -/

/-- C4: when a scheduler boundary exists, the rendered segments appear in
the order pre-boundary physical frames, spliced cooperative frames,
post-boundary physical frames, where the pre- and post-boundary segments
are the take/drop split of the capture at the boundary index: disjoint
sub-sequences with every pre-boundary frame strictly preceding every
post-boundary frame. -/
theorem c4_theorem (cfg : Config) (env : Env) (frames : List Nat)
    (h : scheduler_idx env.region frames ≠ frames.length) :
    renderSegments cfg env frames =
      print_demangled_adresses cfg env (frames.take (scheduler_idx env.region frames)) 0 ++
        print_demangled_adresses cfg env env.coopFrames (scheduler_idx env.region frames) ++
        print_demangled_adresses cfg env (frames.drop (scheduler_idx env.region frames))
          (scheduler_idx env.region frames + env.coopFrames.length) ∧
    frames.take (scheduler_idx env.region frames) ++
        frames.drop (scheduler_idx env.region frames) = frames ∧
    (frames.take (scheduler_idx env.region frames)).length =
      scheduler_idx env.region frames := by
  refine ⟨by simp [renderSegments, h], List.take_append_drop _ _, ?_⟩
  rw [List.length_take]
  have := scheduler_idx_le_length env.region frames
  omega

/-- C4 witness at frames [150, 5] with region (100, 200): the boundary is at
index 0 and the segment order and split hold there. -/
theorem c4_witness :
    renderSegments cfgW envW4 [150, 5] =
      print_demangled_adresses cfgW envW4
          (([150, 5] : List Nat).take (scheduler_idx envW4.region [150, 5])) 0 ++
        print_demangled_adresses cfgW envW4 envW4.coopFrames
          (scheduler_idx envW4.region [150, 5]) ++
        print_demangled_adresses cfgW envW4
          (([150, 5] : List Nat).drop (scheduler_idx envW4.region [150, 5]))
          (scheduler_idx envW4.region [150, 5] + envW4.coopFrames.length) ∧
    ([150, 5] : List Nat).take (scheduler_idx envW4.region [150, 5]) ++
        ([150, 5] : List Nat).drop (scheduler_idx envW4.region [150, 5]) = [150, 5] ∧
    (([150, 5] : List Nat).take (scheduler_idx envW4.region [150, 5])).length =
      scheduler_idx envW4.region [150, 5] :=
  c4_theorem cfgW envW4 [150, 5] (by decide)

/-! ## C6: level-1 rendering -/

/-- C6 counterexample: with three captured frames (none inside the
scheduler region) the level-1 backtrace contains a single raw-address line,
not one line per captured frame: the code drops the two outermost entries
first. -/
theorem c6_counterexample :
    ((backtraceBlock cfgW envW3).filter isAddrLine).length = 1 ∧
    envW3.frames.length = 3 ∧ (1 : Nat) ≠ 3 := by
  refine ⟨?_, rfl, by decide⟩
  rfl

/-- C6 (amended): at verbosity level 1 every backtrace line is a frame's
bare raw address, and the lines are exactly one per frame of the truncated
capture — the captured frames with the two outermost entries dropped,
giving max(n − 2, 0) physical lines — with the cooperative frames spliced
in at the boundary when one exists among the remaining frames. -/
theorem c6_theorem (cfg : Config) (env : Env) (h1 : cfg.php_warning_level = 1) :
    backtraceBlock cfg env =
      OutLine.backtraceBegin ::
        (level1Frames env).map OutLine.addrLine ++ [OutLine.backtraceEnd] ∧
    (env.frames.take (env.frames.length - 2)).length = env.frames.length - 2 := by
  constructor
  · rw [backtraceBlock, if_pos (by omega), effectiveFrames, if_pos h1,
      renderSegments, level1Frames]
    split_ifs with hb
    · simp [print_demangled_adresses, h1]
    · simp [print_demangled_adresses, h1, List.map_append]
  · rw [List.length_take]
    omega

/-- C6 witness at three captured frames outside the region: the level-1
block is the begin marker, the single surviving raw address, and the end
marker. -/
theorem c6_witness :
    backtraceBlock cfgW envW3 =
      OutLine.backtraceBegin ::
        (level1Frames envW3).map OutLine.addrLine ++ [OutLine.backtraceEnd] ∧
    (envW3.frames.take (envW3.frames.length - 2)).length = envW3.frames.length - 2 :=
  c6_theorem cfgW envW3 rfl

/-! ## Branch equations for php_warning -/

theorem leave_enter (t : WarnState) :
    leave_critical_section (enter_critical_section t) = t := by
  simp [leave_critical_section, enter_critical_section]

theorem php_warning_eq_of_disabled (cfg : Config) (env : Env) (msg : String)
    (s : WarnState) (h : cfg.php_warning_level = 0 ∨ cfg.php_disable_warnings = true) :
    php_warning cfg env msg s = (Outcome.returned, s, []) := by
  unfold php_warning
  rw [if_pos h]

theorem php_warning_eq_of_skip (cfg : Config) (env : Env) (msg : String)
    (s : WarnState) (h0 : ¬ (cfg.php_warning_level = 0 ∨ cfg.php_disable_warnings = true))
    (h : warnings_time_limit ≤ (afterRoll env s).warnings_printed + 1) :
    php_warning cfg env msg s =
      (Outcome.returned,
       { afterRoll env s with
           warnings_printed := (afterRoll env s).warnings_printed + 1,
           skipped := (afterRoll env s).skipped + 1 },
       rollEffects env s ++
         (if (afterRoll env s).warnings_printed + 1 = warnings_time_limit then
            [Effect.output (OutLine.limitReached env.cur_time
              ((afterRoll env s).warnings_count_time + warnings_time_period))]
          else [])) := by
  unfold php_warning
  rw [if_neg h0]
  simp only [if_pos h]

theorem php_warning_eq_of_render (cfg : Config) (env : Env) (msg : String)
    (s : WarnState) (h0 : ¬ (cfg.php_warning_level = 0 ∨ cfg.php_disable_warnings = true))
    (h : ¬ warnings_time_limit ≤ (afterRoll env s).warnings_printed + 1)
    (hdie : cfg.die_on_fail = false) :
    php_warning cfg env msg s =
      (Outcome.returned,
       { afterRoll env s with
           warnings_printed := (afterRoll env s).warnings_printed + 1 },
       rollEffects env s ++ renderEffects cfg env msg ++
         (if s.critical_depth = 0 then [Effect.hookInvoked msg] else [])) := by
  unfold php_warning
  rw [if_neg h0]
  simp only [if_neg h, hdie, Bool.false_eq_true, if_false, leave_enter, in_critical_section,
    afterRoll_critical_depth, decide_eq_false_iff_not, Nat.not_lt, Nat.le_zero]

theorem php_warning_eq_of_die (cfg : Config) (env : Env) (msg : String)
    (s : WarnState) (h0 : ¬ (cfg.php_warning_level = 0 ∨ cfg.php_disable_warnings = true))
    (h : ¬ warnings_time_limit ≤ (afterRoll env s).warnings_printed + 1)
    (hdie : cfg.die_on_fail = true) :
    php_warning cfg env msg s =
      (Outcome.terminated,
       { afterRoll env s with
           warnings_printed := (afterRoll env s).warnings_printed + 1 },
       rollEffects env s ++ renderEffects cfg env msg ++
         (if s.critical_depth = 0 then [Effect.hookInvoked msg] else []) ++
         [Effect.raiseSignal, Effect.output OutLine.exitingWarningLine,
          Effect.exited 1]) := by
  unfold php_warning
  rw [if_neg h0]
  simp only [if_neg h, hdie, if_true, leave_enter, in_critical_section,
    afterRoll_critical_depth, decide_eq_false_iff_not, Nat.not_lt, Nat.le_zero,
    List.append_assoc]

/-! ## C7: the critical-section guard is balanced -/

/-- C7: on every path of a warning emission the critical-section depth in
the resulting state equals its value on entry — the guard acquired before
rendering is released on the normal return path and before the
die-on-fail process exit alike, and paths that never acquire it leave the
depth untouched. -/
theorem c7_theorem (cfg : Config) (env : Env) (msg : String) (s : WarnState) :
    (php_warning cfg env msg s).2.1.critical_depth = s.critical_depth := by
  by_cases h0 : cfg.php_warning_level = 0 ∨ cfg.php_disable_warnings = true
  · rw [php_warning_eq_of_disabled cfg env msg s h0]
  · by_cases h : warnings_time_limit ≤ (afterRoll env s).warnings_printed + 1
    · rw [php_warning_eq_of_skip cfg env msg s h0 h]
      exact afterRoll_critical_depth env s
    · cases hdie : cfg.die_on_fail
      · rw [php_warning_eq_of_render cfg env msg s h0 h hdie]
        exact afterRoll_critical_depth env s
      · rw [php_warning_eq_of_die cfg env msg s h0 h hdie]
        exact afterRoll_critical_depth env s

/-! ## Effect-filter lemmas -/

theorem print_no_header (cfg : Config) (env : Env) (buffer : List Nat) (ns : Nat) :
    ∀ l ∈ print_demangled_adresses cfg env buffer ns, isHeaderLine l = false := by
  unfold print_demangled_adresses
  split_ifs <;> intro l hl
  · obtain ⟨a, _, rfl⟩ := List.mem_map.1 hl
    rfl
  · obtain ⟨a, _, rfl⟩ := List.mem_map.1 hl
    rfl
  · obtain ⟨a, _, rfl⟩ := List.mem_map.1 hl
    rfl
  · cases hl

theorem renderSegments_no_header (cfg : Config) (env : Env) (frames : List Nat) :
    ∀ l ∈ renderSegments cfg env frames, isHeaderLine l = false := by
  unfold renderSegments
  split_ifs <;> intro l hl
  · exact print_no_header cfg env frames 0 l hl
  · rcases List.mem_append.1 hl with h | h
    · rcases List.mem_append.1 h with h2 | h2
      · exact print_no_header cfg env _ _ l h2
      · exact print_no_header cfg env _ _ l h2
    · exact print_no_header cfg env _ _ l h

theorem backtraceBlock_no_header (cfg : Config) (env : Env) :
    ∀ l ∈ backtraceBlock cfg env, isHeaderLine l = false := by
  unfold backtraceBlock
  split_ifs <;> intro l hl
  · rcases List.mem_cons.1 hl with rfl | h
    · rfl
    · rcases List.mem_append.1 h with h2 | h2
      · exact renderSegments_no_header cfg env _ l h2
      · rcases List.mem_singleton.1 h2 with rfl
        rfl
  · cases hl

theorem filter_isHook_map_output (ls : List OutLine) :
    (ls.map Effect.output).filter isHook = [] := by
  induction ls with
  | nil => rfl
  | cons l t ih => simp [isHook, ih]

theorem filter_isHeader_map_output (ls : List OutLine)
    (h : ∀ l ∈ ls, isHeaderLine l = false) :
    (ls.map Effect.output).filter isHeader = [] := by
  induction ls with
  | nil => rfl
  | cons l t ih =>
    have hl := h l (List.mem_cons_self l t)
    have ht := ih fun x hx => h x (List.mem_cons_of_mem l hx)
    simpa [isHeader, hl] using ht

theorem rollEffects_filter_isHook (env : Env) (s : WarnState) :
    (rollEffects env s).filter isHook = [] := by
  unfold rollEffects
  split_ifs <;> rfl

theorem rollEffects_filter_isHeader (env : Env) (s : WarnState) :
    (rollEffects env s).filter isHeader = [] := by
  unfold rollEffects
  split_ifs <;> rfl

theorem renderEffects_filter_isHook (cfg : Config) (env : Env) (msg : String) :
    (renderEffects cfg env msg).filter isHook = [] := by
  rw [renderEffects]
  simp [isHook, filter_isHook_map_output (backtraceBlock cfg env)]

theorem renderEffects_filter_isHeader (cfg : Config) (env : Env) (msg : String) :
    (renderEffects cfg env msg).filter isHeader =
      [Effect.output (OutLine.header env.cur_time msg)] := by
  rw [renderEffects]
  simpa [isHeader, isHeaderLine] using
    filter_isHeader_map_output (backtraceBlock cfg env) (backtraceBlock_no_header cfg env)

/-! ## C9: the external notification hook -/

/-- C9: the external hook is never invoked when the emission occurred
inside an enclosing critical section, and outside one it is invoked exactly
once per rendered warning (never for suppressed ones), always with the
formatted message text. -/
theorem c9_theorem (cfg : Config) (env : Env) (msg : String) (s : WarnState) :
    (php_warning cfg env msg s).2.2.filter isHook =
      (if s.critical_depth = 0 then
        ((php_warning cfg env msg s).2.2.filter isHeader).map
          (fun _ => Effect.hookInvoked msg)
       else []) := by
  by_cases h0 : cfg.php_warning_level = 0 ∨ cfg.php_disable_warnings = true
  · rw [php_warning_eq_of_disabled cfg env msg s h0]
    split_ifs <;> rfl
  · by_cases h : warnings_time_limit ≤ (afterRoll env s).warnings_printed + 1
    · rw [php_warning_eq_of_skip cfg env msg s h0 h]
      simp only [List.filter_append, rollEffects_filter_isHook, rollEffects_filter_isHeader,
        List.nil_append]
      split_ifs <;> rfl
    · have key : ∀ tail : List Effect,
          tail.filter isHook = [] → tail.filter isHeader = [] →
          (rollEffects env s ++ renderEffects cfg env msg ++
              (if s.critical_depth = 0 then [Effect.hookInvoked msg] else []) ++
              tail).filter isHook =
            (if s.critical_depth = 0 then
              ((rollEffects env s ++ renderEffects cfg env msg ++
                  (if s.critical_depth = 0 then [Effect.hookInvoked msg] else []) ++
                  tail).filter isHeader).map (fun _ => Effect.hookInvoked msg)
             else []) := by
        intro tail hHook hHeader
        by_cases hd : s.critical_depth = 0 <;>
          simp [hd, List.filter_append, rollEffects_filter_isHook,
            rollEffects_filter_isHeader, renderEffects_filter_isHook,
            renderEffects_filter_isHeader, hHook, hHeader, isHook, isHeader, isHeaderLine]
      cases hdie : cfg.die_on_fail
      · rw [php_warning_eq_of_render cfg env msg s h0 h hdie]
        have := key [] rfl rfl
        simpa using this
      · rw [php_warning_eq_of_die cfg env msg s h0 h hdie]
        exact key [Effect.raiseSignal, Effect.output OutLine.exitingWarningLine,
          Effect.exited 1] rfl rfl

/-! ## Step lemmas for the rate window -/

theorem afterRoll_of_in_window (env : Env) (s : WarnState)
    (ht : env.cur_time < s.warnings_count_time + warnings_time_period) :
    afterRoll env s = s := by
  unfold afterRoll
  rw [if_neg (by omega)]

theorem rollEffects_of_in_window (env : Env) (s : WarnState)
    (ht : env.cur_time < s.warnings_count_time + warnings_time_period) :
    rollEffects env s = [] := by
  unfold rollEffects
  rw [if_neg]
  rintro ⟨h1, _⟩
  omega

theorem afterRoll_of_rolled (env : Env) (s : WarnState)
    (ht : s.warnings_count_time + warnings_time_period ≤ env.cur_time) :
    afterRoll env s =
      { s with warnings_printed := 0, warnings_count_time := env.cur_time,
               skipped := 0 } := by
  unfold afterRoll
  rw [if_pos ht]

theorem rollEffects_of_rolled_pos (env : Env) (s : WarnState)
    (ht : s.warnings_count_time + warnings_time_period ≤ env.cur_time)
    (hk : 0 < s.skipped) :
    rollEffects env s = [Effect.output (OutLine.resumingNotice env.cur_time s.skipped)] := by
  unfold rollEffects
  rw [if_pos ⟨ht, hk⟩]

theorem php_warning_step_skip (cfg : Config) (env : Env) (msg : String) (s : WarnState)
    (h0 : ¬ (cfg.php_warning_level = 0 ∨ cfg.php_disable_warnings = true))
    (ht : env.cur_time < s.warnings_count_time + warnings_time_period)
    (hp : warnings_time_limit ≤ s.warnings_printed + 1) :
    php_warning cfg env msg s =
      (Outcome.returned,
       { s with warnings_printed := s.warnings_printed + 1, skipped := s.skipped + 1 },
       if s.warnings_printed + 1 = warnings_time_limit then
         [Effect.output (OutLine.limitReached env.cur_time
           (s.warnings_count_time + warnings_time_period))]
       else []) := by
  rw [php_warning_eq_of_skip cfg env msg s h0
    (by rw [afterRoll_of_in_window env s ht]; exact hp)]
  rw [afterRoll_of_in_window env s ht, rollEffects_of_in_window env s ht]
  simp

theorem php_warning_step_render (cfg : Config) (env : Env) (msg : String) (s : WarnState)
    (h0 : ¬ (cfg.php_warning_level = 0 ∨ cfg.php_disable_warnings = true))
    (ht : env.cur_time < s.warnings_count_time + warnings_time_period)
    (hp : ¬ warnings_time_limit ≤ s.warnings_printed + 1)
    (hdie : cfg.die_on_fail = false) :
    php_warning cfg env msg s =
      (Outcome.returned, { s with warnings_printed := s.warnings_printed + 1 },
       renderEffects cfg env msg ++
         (if s.critical_depth = 0 then [Effect.hookInvoked msg] else [])) := by
  rw [php_warning_eq_of_render cfg env msg s h0
    (by rw [afterRoll_of_in_window env s ht]; exact hp) hdie]
  rw [afterRoll_of_in_window env s ht, rollEffects_of_in_window env s ht]
  simp

theorem php_warning_step_rollover (cfg : Config) (env : Env) (msg : String) (s : WarnState)
    (h0 : ¬ (cfg.php_warning_level = 0 ∨ cfg.php_disable_warnings = true))
    (ht : s.warnings_count_time + warnings_time_period ≤ env.cur_time)
    (hk : 0 < s.skipped)
    (hdie : cfg.die_on_fail = false) :
    php_warning cfg env msg s =
      (Outcome.returned,
       { s with warnings_printed := 1, warnings_count_time := env.cur_time, skipped := 0 },
       Effect.output (OutLine.resumingNotice env.cur_time s.skipped) ::
         (renderEffects cfg env msg ++
           (if s.critical_depth = 0 then [Effect.hookInvoked msg] else []))) := by
  have hp : ¬ warnings_time_limit ≤ (afterRoll env s).warnings_printed + 1 := by
    rw [afterRoll_of_rolled env s ht]
    norm_num [warnings_time_limit]
  rw [php_warning_eq_of_render cfg env msg s h0 hp hdie]
  rw [afterRoll_of_rolled env s ht, rollEffects_of_rolled_pos env s ht hk]
  simp

theorem php_warning_returns (cfg : Config) (env : Env) (msg : String) (s : WarnState)
    (hdie : cfg.die_on_fail = false) :
    (php_warning cfg env msg s).1 = Outcome.returned := by
  by_cases h0 : cfg.php_warning_level = 0 ∨ cfg.php_disable_warnings = true
  · rw [php_warning_eq_of_disabled cfg env msg s h0]
  · by_cases h : warnings_time_limit ≤ (afterRoll env s).warnings_printed + 1
    · rw [php_warning_eq_of_skip cfg env msg s h0 h]
    · rw [php_warning_eq_of_render cfg env msg s h0 h hdie]

/-! ## Counting rendered reports -/

theorem countRendered_append (a b : List Effect) :
    countRendered (a ++ b) = countRendered a + countRendered b := by
  simp [countRendered, List.filter_append]

theorem countRendered_limitFx (c : Prop) [Decidable c] (t u : Int) :
    countRendered (if c then [Effect.output (OutLine.limitReached t u)] else []) = 0 := by
  split_ifs <;> rfl

theorem countRendered_hookFx (c : Prop) [Decidable c] (msg : String) :
    countRendered (if c then [Effect.hookInvoked msg] else []) = 0 := by
  split_ifs <;> rfl

theorem countRendered_renderEffects (cfg : Config) (env : Env) (msg : String) :
    countRendered (renderEffects cfg env msg) = 1 := by
  rw [countRendered, renderEffects_filter_isHeader]
  rfl

/-! ## Sequences of emissions inside one window -/

theorem emitSeq_cons_state (cfg : Config) (msg : String) (e : Env) (rest : List Env)
    (s : WarnState) (hr : (php_warning cfg e msg s).1 = Outcome.returned) :
    (emitSeq cfg (e :: rest) msg s).1 =
      (emitSeq cfg rest msg (php_warning cfg e msg s).2.1).1 := by
  have : ¬ (php_warning cfg e msg s).1 = Outcome.terminated := by
    rw [hr]
    simp
  simp [emitSeq, this]

theorem emitSeq_cons_fx (cfg : Config) (msg : String) (e : Env) (rest : List Env)
    (s : WarnState) (hr : (php_warning cfg e msg s).1 = Outcome.returned) :
    (emitSeq cfg (e :: rest) msg s).2 =
      (php_warning cfg e msg s).2.2 ++
        (emitSeq cfg rest msg (php_warning cfg e msg s).2.1).2 := by
  have : ¬ (php_warning cfg e msg s).1 = Outcome.terminated := by
    rw [hr]
    simp
  simp [emitSeq, this]

theorem emitSeq_within_window (cfg : Config) (env : Env) (msg : String)
    (h0 : ¬ (cfg.php_warning_level = 0 ∨ cfg.php_disable_warnings = true))
    (hdie : cfg.die_on_fail = false) :
    ∀ (n p k d : Nat) (tc : Int), env.cur_time < tc + warnings_time_period →
      countRendered (emitSeq cfg (List.replicate n env) msg
          ⟨p, tc, k, d⟩).2 = min n (warnings_time_limit - 1 - p) ∧
      (emitSeq cfg (List.replicate n env) msg ⟨p, tc, k, d⟩).1 =
        ⟨p + n, tc, k + (n - (warnings_time_limit - 1 - p)), d⟩ := by
  intro n
  induction n with
  | zero =>
    intro p k d tc ht
    rw [List.replicate_zero]
    constructor
    · show countRendered [] = min 0 (warnings_time_limit - 1 - p)
      simp [countRendered]
    · show (⟨p, tc, k, d⟩ : WarnState) = _
      simp only [WarnState.mk.injEq, warnings_time_limit, true_and, and_true]
      omega
  | succ m ih =>
    intro p k d tc ht
    rw [List.replicate_succ]
    by_cases hp : warnings_time_limit ≤ p + 1
    · have hstep := php_warning_step_skip cfg env msg ⟨p, tc, k, d⟩ h0 ht hp
      have hout : (php_warning cfg env msg ⟨p, tc, k, d⟩).1 = Outcome.returned := by
        rw [hstep]
      have hst : (php_warning cfg env msg ⟨p, tc, k, d⟩).2.1 =
          (⟨p + 1, tc, k + 1, d⟩ : WarnState) := by
        rw [hstep]
      have hfx : (php_warning cfg env msg ⟨p, tc, k, d⟩).2.2 =
          (if p + 1 = warnings_time_limit then
            [Effect.output (OutLine.limitReached env.cur_time
              (tc + warnings_time_period))]
           else []) := by
        rw [hstep]
      have ihm := ih (p + 1) (k + 1) d tc ht
      constructor
      · rw [emitSeq_cons_fx cfg msg env (List.replicate m env) ⟨p, tc, k, d⟩ hout,
          hst, hfx, countRendered_append, ihm.1, countRendered_limitFx]
        simp only [warnings_time_limit] at hp ⊢
        omega
      · rw [emitSeq_cons_state cfg msg env (List.replicate m env) ⟨p, tc, k, d⟩ hout,
          hst, ihm.2]
        simp only [WarnState.mk.injEq, warnings_time_limit, true_and, and_true]
        simp only [warnings_time_limit] at hp
        omega
    · have hstep := php_warning_step_render cfg env msg ⟨p, tc, k, d⟩ h0 ht hp hdie
      have hout : (php_warning cfg env msg ⟨p, tc, k, d⟩).1 = Outcome.returned := by
        rw [hstep]
      have hst : (php_warning cfg env msg ⟨p, tc, k, d⟩).2.1 =
          (⟨p + 1, tc, k, d⟩ : WarnState) := by
        rw [hstep]
      have hfx : (php_warning cfg env msg ⟨p, tc, k, d⟩).2.2 =
          renderEffects cfg env msg ++
            (if d = 0 then [Effect.hookInvoked msg] else []) := by
        rw [hstep]
      have ihm := ih (p + 1) k d tc ht
      constructor
      · rw [emitSeq_cons_fx cfg msg env (List.replicate m env) ⟨p, tc, k, d⟩ hout,
          hst, hfx, countRendered_append, countRendered_append, ihm.1,
          countRendered_renderEffects, countRendered_hookFx]
        simp only [warnings_time_limit] at hp ⊢
        omega
      · rw [emitSeq_cons_state cfg msg env (List.replicate m env) ⟨p, tc, k, d⟩ hout,
          hst, ihm.2]
        simp only [WarnState.mk.injEq, warnings_time_limit, true_and, and_true]
        simp only [warnings_time_limit] at hp
        omega

theorem emitSeq_append_state (cfg : Config) (msg : String)
    (hdie : cfg.die_on_fail = false) (l2 : List Env) : ∀ (l1 : List Env) (s : WarnState),
    (emitSeq cfg (l1 ++ l2) msg s).1 =
      (emitSeq cfg l2 msg (emitSeq cfg l1 msg s).1).1 := by
  intro l1
  induction l1 with
  | nil => intro s; rfl
  | cons e t ih =>
    intro s
    have hr := php_warning_returns cfg e msg s hdie
    rw [List.cons_append, emitSeq_cons_state cfg msg e (t ++ l2) s hr,
      emitSeq_cons_state cfg msg e t s hr, ih]

theorem emitSeq_append_fx (cfg : Config) (msg : String)
    (hdie : cfg.die_on_fail = false) (l2 : List Env) : ∀ (l1 : List Env) (s : WarnState),
    (emitSeq cfg (l1 ++ l2) msg s).2 =
      (emitSeq cfg l1 msg s).2 ++
        (emitSeq cfg l2 msg (emitSeq cfg l1 msg s).1).2 := by
  intro l1
  induction l1 with
  | nil => intro s; rfl
  | cons e t ih =>
    intro s
    have hr := php_warning_returns cfg e msg s hdie
    rw [List.cons_append, emitSeq_cons_fx cfg msg e (t ++ l2) s hr, ih,
      emitSeq_cons_fx cfg msg e t s hr, emitSeq_cons_state cfg msg e t s hr,
      List.append_assoc]

/-! ## C1: the per-window cap -/

/-- C1 counterexample: with 1001 emissions inside one window (cap 1000) the
claim predicts 1000 rendered reports and 1 skipped; the code renders only
999 (the pre-incremented counter hits the limit check at the 1000th
emission already). -/
theorem c1_counterexample :
    ¬ (countRendered (emitSeq cfgW (List.replicate 1001 envW) "m" ⟨0, 0, 0, 0⟩).2 = 1000 ∧
       (emitSeq cfgW (List.replicate 1001 envW) "m" ⟨0, 0, 0, 0⟩).1.skipped = 1) := by
  have h := emitSeq_within_window cfgW envW "m" (by decide) rfl 1001 0 0 0 0 (by decide)
  rintro ⟨hc, _⟩
  rw [h.1] at hc
  norm_num [warnings_time_limit] at hc

/-- C1 (amended): for N warning emissions arriving inside one rate window
with N greater than the per-window cap, exactly cap − 1 of them render a
report and exactly N − (cap − 1) are counted as skipped, the suppressed
ones producing no report output until the window resets. -/
theorem c1_theorem (cfg : Config) (env : Env) (msg : String) (n d : Nat) (tc : Int)
    (h0 : ¬ (cfg.php_warning_level = 0 ∨ cfg.php_disable_warnings = true))
    (hdie : cfg.die_on_fail = false)
    (ht : env.cur_time < tc + warnings_time_period)
    (hn : warnings_time_limit < n) :
    countRendered (emitSeq cfg (List.replicate n env) msg ⟨0, tc, 0, d⟩).2 =
      warnings_time_limit - 1 ∧
    (emitSeq cfg (List.replicate n env) msg ⟨0, tc, 0, d⟩).1.skipped =
      n - (warnings_time_limit - 1) := by
  have h := emitSeq_within_window cfg env msg h0 hdie n 0 0 d tc ht
  constructor
  · rw [h.1]
    simp only [warnings_time_limit] at hn ⊢
    omega
  · rw [h.2]
    show 0 + (n - (warnings_time_limit - 1 - 0)) = n - (warnings_time_limit - 1)
    simp only [warnings_time_limit]
    omega

/-- C1 witness: 1001 emissions at time 0 inside the window starting at 0
render 999 reports and leave 2 skipped. -/
theorem c1_witness :
    countRendered (emitSeq cfgW (List.replicate 1001 envW) "m" ⟨0, 0, 0, 0⟩).2 =
      warnings_time_limit - 1 ∧
    (emitSeq cfgW (List.replicate 1001 envW) "m" ⟨0, 0, 0, 0⟩).1.skipped =
      1001 - (warnings_time_limit - 1) :=
  c1_theorem cfgW envW "m" 1001 0 0 (by decide) rfl (by decide) (by decide)


/-! ## C5: the resuming notice -/

/-- C5 counterexample: after 1001 emissions in one window the skipped
counter holds 2, and the first emission of the next window prints a
resuming notice reporting 2 skipped events — not N − cap = 1 as the claim
states. -/
theorem c5_counterexample :
    (emitSeq cfgW (List.replicate 1001 envW) "m" ⟨0, 0, 0, 0⟩).1.skipped = 2 ∧
    (php_warning cfgW envW2 "m"
        (emitSeq cfgW (List.replicate 1001 envW) "m" ⟨0, 0, 0, 0⟩).1).2.2.head? =
      some (Effect.output (OutLine.resumingNotice 300 2)) ∧
    (1001 - 1000 : Nat) ≠ 2 := by
  have hw := emitSeq_within_window cfgW envW "m" (by decide) rfl 1001 0 0 0 0 (by decide)
  have hS : (emitSeq cfgW (List.replicate 1001 envW) "m" ⟨0, 0, 0, 0⟩).1 =
      (⟨1001, 0, 2, 0⟩ : WarnState) := by
    rw [hw.2]
    decide
  refine ⟨by rw [hS], ?_, by decide⟩
  rw [hS, php_warning_step_rollover cfgW envW2 "m" ⟨1001, 0, 2, 0⟩ (by decide) (by decide)
    (by decide) rfl]
  rfl

/-- C5 (amended): after a window in which S > 0 events were skipped, the
first rendered report of the next window is preceded by a one-line
resuming notice reporting exactly K = N − (cap − 1) skipped events
(equivalently K = S, the skipped counter's value), and the skipped counter
is then reset to zero. -/
theorem c5_theorem (cfg : Config) (env1 env2 : Env) (msg : String) (n d : Nat) (tc : Int)
    (h0 : ¬ (cfg.php_warning_level = 0 ∨ cfg.php_disable_warnings = true))
    (hdie : cfg.die_on_fail = false)
    (ht1 : env1.cur_time < tc + warnings_time_period)
    (ht2 : tc + warnings_time_period ≤ env2.cur_time)
    (hn : warnings_time_limit ≤ n) :
    (emitSeq cfg (List.replicate n env1 ++ [env2]) msg ⟨0, tc, 0, d⟩).2 =
      (emitSeq cfg (List.replicate n env1) msg ⟨0, tc, 0, d⟩).2 ++
        Effect.output (OutLine.resumingNotice env2.cur_time
            (n - (warnings_time_limit - 1))) ::
          (renderEffects cfg env2 msg ++
            (if d = 0 then [Effect.hookInvoked msg] else [])) ∧
    countRendered (emitSeq cfg (List.replicate n env1) msg ⟨0, tc, 0, d⟩).2 =
      warnings_time_limit - 1 ∧
    (emitSeq cfg (List.replicate n env1 ++ [env2]) msg ⟨0, tc, 0, d⟩).1.skipped = 0 := by
  have hw := emitSeq_within_window cfg env1 msg h0 hdie n 0 0 d tc ht1
  have hS : (emitSeq cfg (List.replicate n env1) msg ⟨0, tc, 0, d⟩).1 =
      (⟨n, tc, n - (warnings_time_limit - 1), d⟩ : WarnState) := by
    rw [hw.2]
    simp only [WarnState.mk.injEq, warnings_time_limit, true_and, and_true]
    omega
  have hk : 0 < (⟨n, tc, n - (warnings_time_limit - 1), d⟩ : WarnState).skipped := by
    show 0 < n - (warnings_time_limit - 1)
    simp only [warnings_time_limit] at hn ⊢
    omega
  have hstep := php_warning_step_rollover cfg env2 msg
    ⟨n, tc, n - (warnings_time_limit - 1), d⟩ h0 ht2 hk hdie
  have hout2 : (php_warning cfg env2 msg
      (⟨n, tc, n - (warnings_time_limit - 1), d⟩ : WarnState)).1 = Outcome.returned := by
    rw [hstep]
  have hfx2 : (php_warning cfg env2 msg
      (⟨n, tc, n - (warnings_time_limit - 1), d⟩ : WarnState)).2.2 =
      Effect.output (OutLine.resumingNotice env2.cur_time
          (n - (warnings_time_limit - 1))) ::
        (renderEffects cfg env2 msg ++
          (if d = 0 then [Effect.hookInvoked msg] else [])) := by
    rw [hstep]
  have hst2 : (php_warning cfg env2 msg
      (⟨n, tc, n - (warnings_time_limit - 1), d⟩ : WarnState)).2.1 =
      (⟨1, env2.cur_time, 0, d⟩ : WarnState) := by
    rw [hstep]
  refine ⟨?_, ?_, ?_⟩
  · rw [emitSeq_append_fx cfg msg hdie [env2] (List.replicate n env1) ⟨0, tc, 0, d⟩, hS,
      emitSeq_cons_fx cfg msg env2 [] _ hout2, hfx2]
    simp [emitSeq]
  · rw [hw.1]
    simp only [warnings_time_limit] at hn ⊢
    omega
  · rw [emitSeq_append_state cfg msg hdie [env2] (List.replicate n env1) ⟨0, tc, 0, d⟩, hS,
      emitSeq_cons_state cfg msg env2 [] _ hout2, hst2]
    rfl

/-- C5 witness: 1000 emissions at time 0 skip one event; the emission at
time 300 prints the resuming notice with K = 1 and then its own report,
and the counter ends at zero. -/
theorem c5_witness :
    (emitSeq cfgW (List.replicate 1000 envW ++ [envW2]) "m" ⟨0, 0, 0, 0⟩).2 =
      (emitSeq cfgW (List.replicate 1000 envW) "m" ⟨0, 0, 0, 0⟩).2 ++
        Effect.output (OutLine.resumingNotice envW2.cur_time
            (1000 - (warnings_time_limit - 1))) ::
          (renderEffects cfgW envW2 "m" ++
            (if 0 = 0 then [Effect.hookInvoked "m"] else [])) ∧
    countRendered (emitSeq cfgW (List.replicate 1000 envW) "m" ⟨0, 0, 0, 0⟩).2 =
      warnings_time_limit - 1 ∧
    (emitSeq cfgW (List.replicate 1000 envW ++ [envW2]) "m" ⟨0, 0, 0, 0⟩).1.skipped = 0 :=
  c5_theorem cfgW envW envW2 "m" 1000 0 0 (by decide) rfl (by decide) (by decide) (by decide)

/-! ## C3: fatal asserts terminate, plain warnings return -/

theorem all_not_term_map_output (ls : List OutLine) :
    (ls.map Effect.output).all (fun e => ! isTermEffect e) = true := by
  induction ls with
  | nil => rfl
  | cons l t ih => simp [isTermEffect, ih]

theorem all_not_term_rollEffects (env : Env) (s : WarnState) :
    (rollEffects env s).all (fun e => ! isTermEffect e) = true := by
  unfold rollEffects
  split_ifs <;> rfl

theorem all_not_term_renderEffects (cfg : Config) (env : Env) (msg : String) :
    (renderEffects cfg env msg).all (fun e => ! isTermEffect e) = true := by
  rw [renderEffects]
  simp [isTermEffect, all_not_term_map_output]

theorem all_not_term_hookFx (c : Prop) [Decidable c] (msg : String) :
    (if c then [Effect.hookInvoked msg] else []).all (fun e => ! isTermEffect e) = true := by
  split_ifs <;> rfl

theorem all_not_term_limitFx (c : Prop) [Decidable c] (t u : Int) :
    (if c then [Effect.output (OutLine.limitReached t u)] else []).all
      (fun e => ! isTermEffect e) = true := by
  split_ifs <;> rfl

theorem php_warning_no_term_fx (cfg : Config) (env : Env) (msg : String) (s : WarnState)
    (hdie : cfg.die_on_fail = false) :
    (php_warning cfg env msg s).2.2.all (fun e => ! isTermEffect e) = true := by
  by_cases h0 : cfg.php_warning_level = 0 ∨ cfg.php_disable_warnings = true
  · rw [php_warning_eq_of_disabled cfg env msg s h0]
    rfl
  · by_cases h : warnings_time_limit ≤ (afterRoll env s).warnings_printed + 1
    · rw [php_warning_eq_of_skip cfg env msg s h0 h]
      simp [List.all_append, all_not_term_rollEffects, all_not_term_limitFx]
    · rw [php_warning_eq_of_render cfg env msg s h0 h hdie]
      simp [List.all_append, all_not_term_rollEffects, all_not_term_renderEffects,
        all_not_term_hookFx]

theorem php_assert_eq_of_returned (cfg : Config) (env : Env) (msg file : String)
    (line : Int) (s : WarnState)
    (hr : (php_warning cfg env (assertMsg msg file line) s).1 = Outcome.returned) :
    php_assert__ cfg env msg file line s =
      (Outcome.terminated, (php_warning cfg env (assertMsg msg file line) s).2.1,
       (php_warning cfg env (assertMsg msg file line) s).2.2 ++
         [Effect.raiseSignal, Effect.output OutLine.exitingAssertLine,
          Effect.exited 1]) := by
  unfold php_assert__
  rcases hw : php_warning cfg env (assertMsg msg file line) s with ⟨o, s_r, fx⟩
  rw [hw] at hr
  have ho : o = Outcome.returned := hr
  subst ho
  rfl

/-- C3: every fatal assert terminates the process (its effect trace ends in
the low-level exit), and every warning emission with the die-on-fail toggle
off returns normally, its effects containing neither the fault signal nor
an exit, regardless of the incoming counter state. -/
theorem c3_theorem (cfg : Config) (env : Env) (msg file m2 : String) (line : Int)
    (s : WarnState) (hdie : cfg.die_on_fail = false) :
    (php_assert__ cfg env msg file line s).1 = Outcome.terminated ∧
    (php_assert__ cfg env msg file line s).2.2.getLast? = some (Effect.exited 1) ∧
    (php_warning cfg env m2 s).1 = Outcome.returned ∧
    (php_warning cfg env m2 s).2.2.all (fun e => ! isTermEffect e) = true := by
  have hr := php_warning_returns cfg env (assertMsg msg file line) s hdie
  have hassert := php_assert_eq_of_returned cfg env msg file line s hr
  refine ⟨by rw [hassert], ?_, php_warning_returns cfg env m2 s hdie,
    php_warning_no_term_fx cfg env m2 s hdie⟩
  rw [hassert]
  show ((php_warning cfg env (assertMsg msg file line) s).2.2 ++
    [Effect.raiseSignal, Effect.output OutLine.exitingAssertLine,
     Effect.exited 1]).getLast? = some (Effect.exited 1)
  rw [List.getLast?_append_cons]
  rfl

/-- C3 witness at a concrete configuration and state: the assert terminates
with a final exit effect and the warning returns with no terminating
effect. -/
theorem c3_witness :
    (php_assert__ cfgW envW "a" "f" 7 ⟨0, 0, 0, 0⟩).1 = Outcome.terminated ∧
    (php_assert__ cfgW envW "a" "f" 7 ⟨0, 0, 0, 0⟩).2.2.getLast? =
      some (Effect.exited 1) ∧
    (php_warning cfgW envW "m" ⟨0, 0, 0, 0⟩).1 = Outcome.returned ∧
    (php_warning cfgW envW "m" ⟨0, 0, 0, 0⟩).2.2.all (fun e => ! isTermEffect e) = true :=
  c3_theorem cfgW envW "a" "f" "m" 7 ⟨0, 0, 0, 0⟩ rfl

/-! ## C10: suppression never suppresses termination -/

/-- C10: when a fatal assert's diagnostic report is entirely suppressed —
verbosity 0, warnings disabled, or the event beyond the rate-window cap —
the call still renders no report yet raises the fault signal, performs the
low-level exit, and terminates the process. -/
theorem c10_theorem (cfg : Config) (env : Env) (msg file : String) (line : Int)
    (s : WarnState)
    (hsup : cfg.php_warning_level = 0 ∨ cfg.php_disable_warnings = true ∨
      (env.cur_time < s.warnings_count_time + warnings_time_period ∧
       warnings_time_limit ≤ s.warnings_printed + 1)) :
    countRendered (php_assert__ cfg env msg file line s).2.2 = 0 ∧
    (php_assert__ cfg env msg file line s).1 = Outcome.terminated ∧
    Effect.raiseSignal ∈ (php_assert__ cfg env msg file line s).2.2 ∧
    Effect.exited 1 ∈ (php_assert__ cfg env msg file line s).2.2 := by
  have hmain : (php_warning cfg env (assertMsg msg file line) s).1 = Outcome.returned ∧
      countRendered (php_warning cfg env (assertMsg msg file line) s).2.2 = 0 := by
    by_cases h0 : cfg.php_warning_level = 0 ∨ cfg.php_disable_warnings = true
    · rw [php_warning_eq_of_disabled cfg env (assertMsg msg file line) s h0]
      exact ⟨rfl, rfl⟩
    · have hcase : env.cur_time < s.warnings_count_time + warnings_time_period ∧
          warnings_time_limit ≤ s.warnings_printed + 1 := by
        rcases hsup with h | h | h
        · exact absurd (Or.inl h) h0
        · exact absurd (Or.inr h) h0
        · exact h
      rw [php_warning_step_skip cfg env (assertMsg msg file line) s h0 hcase.1 hcase.2]
      exact ⟨rfl, countRendered_limitFx _ _ _⟩
  have hassert := php_assert_eq_of_returned cfg env msg file line s hmain.1
  refine ⟨?_, by rw [hassert], ?_, ?_⟩
  · rw [hassert]
    show countRendered ((php_warning cfg env (assertMsg msg file line) s).2.2 ++
      [Effect.raiseSignal, Effect.output OutLine.exitingAssertLine,
       Effect.exited 1]) = 0
    rw [countRendered_append, hmain.2]
    rfl
  · rw [hassert]
    show Effect.raiseSignal ∈ (php_warning cfg env (assertMsg msg file line) s).2.2 ++
      [Effect.raiseSignal, Effect.output OutLine.exitingAssertLine, Effect.exited 1]
    simp
  · rw [hassert]
    show Effect.exited 1 ∈ (php_warning cfg env (assertMsg msg file line) s).2.2 ++
      [Effect.raiseSignal, Effect.output OutLine.exitingAssertLine, Effect.exited 1]
    simp

/-- C10 witness: with verbosity 0 the assert renders nothing yet raises the
signal and exits. -/
theorem c10_witness :
    countRendered (php_assert__ cfgZero envW "a" "f" 7 ⟨0, 0, 0, 0⟩).2.2 = 0 ∧
    (php_assert__ cfgZero envW "a" "f" 7 ⟨0, 0, 0, 0⟩).1 = Outcome.terminated ∧
    Effect.raiseSignal ∈ (php_assert__ cfgZero envW "a" "f" 7 ⟨0, 0, 0, 0⟩).2.2 ∧
    Effect.exited 1 ∈ (php_assert__ cfgZero envW "a" "f" 7 ⟨0, 0, 0, 0⟩).2.2 :=
  c10_theorem cfgZero envW "a" "f" 7 ⟨0, 0, 0, 0⟩ (Or.inl rfl)

end PhpAssert
